import Mathlib

/-!
Verification of the Residual Filter of expanding_kernel.py.

The single function of the repository, get_residual, is embedded shallowly:
NumPy 1-D arrays become lists of reals, 2-D arrays become lists of rows, the
float operations become real-number operations (** with a real exponent is
Real.rpow, matching NumPy on the nonnegative bases that occur here), and the
two external scipy collaborators (the interp2d spline evaluation and
gaussian_filter) are parameters of the embedding, since the source consumes
them as black boxes.  The validation that scipy.interpolate.interp2d performs
on its own inputs (value-array shape against the sample axes; supported
interpolation kinds; the FITPACK requirement of strictly more samples than
the spline degree along each axis) is modelled explicitly, because the error
behaviour of get_residual is inherited entirely from it.
-/

namespace ExpandingKernel

noncomputable section

/-- A 1-D numpy array of floats, modelled as a list of reals. -/
abbrev Vec := List ℝ

/-- A 2-D numpy array of floats, modelled as a list of rows. -/
abbrev Mat := List (List ℝ)

/-- NumPy broadcasting of an elementwise binary operation over two 1-D arrays:
equal lengths pair elementwise, a length-1 operand is broadcast across the
other, and any other combination is a broadcast failure (a NumPy ValueError). -/
def bcast2 (f : ℝ → ℝ → ℝ) (a b : Vec) : Option Vec :=
  if a.length = b.length then some (List.zipWith f a b)
  else if a.length = 1 then some (b.map (f a.headI))
  else if b.length = 1 then some (a.map (fun t => f t b.headI))
  else none

/-- Elementwise square, the NumPy expression v ** 2. -/
def npSq (a : Vec) : Vec := a.map (fun t => t ^ 2)

/-- Elementwise power with a real exponent, the NumPy expression v ** p.
Real.rpow agrees with NumPy float power on nonnegative bases (the only bases
occurring in the source: squares and square roots), including 0 ** 0 = 1. -/
def npPow (a : Vec) (p : ℝ) : Vec := a.map (fun t => t ^ p)

/-- Line 39 of the source: R = (X**2 + Y**2)**0.5, computed elementwise on the
raw 1-D axes with NumPy broadcasting.  Note that this is a 1-D array. -/
def radialGrid (X Y : Vec) : Option Vec :=
  (bcast2 (· + ·) (npSq X) (npSq Y)).map (fun s => npPow s 0.5)

/-- Lines 42-43 of the source: one stretched coordinate axis, A * (R**gamma). -/
def stretchAxis (A R : Vec) (gamma : ℝ) : Option Vec :=
  bcast2 (· * ·) A (npPow R gamma)

/-- Lines 38-43 of the source: the radial grid and both stretched axes.
The result is a pair of 1-D arrays (x, y). -/
def stretchedGrid (X Y : Vec) (gamma : ℝ) : Option (Vec × Vec) :=
  match radialGrid X Y with
  | none => none
  | some R =>
    match stretchAxis X R gamma, stretchAxis Y R gamma with
    | some x, some y => some (x, y)
    | _, _ => none

/-- The error kinds that can surface from a call to get_residual, following the
taxonomy of the specification: a NumPy broadcast failure, an unsupported
interpolation kind, a value-array shape mismatch inside the interpolator, and
the FITPACK minimum-sample failure (the dfitpack error raised by regrid_smth
when an axis does not have more samples than the spline degree). -/
inductive Err where
  | broadcastError
  | invalidParameter
  | shapeMismatch
  | tooFewSamples
  deriving DecidableEq

/-- The interpolation kinds accepted by the scipy.interpolate.interp2d
collaborator. -/
def supportedKinds : List String := ["linear", "cubic", "quintic"]

/-- The spline degree kx = ky that interp2d uses for each supported kind:
1 for linear, 3 for cubic, 5 for quintic. -/
def splineDegree (kind : String) : Nat :=
  if kind = "linear" then 1 else if kind = "cubic" then 3 else 5

/-- The type of the black-box spline evaluation at the core of the interp2d
collaborator: (sample xs, sample ys, values, query xs, query ys) yielding the
value grid at the query points, of shape (|query ys|, |query xs|). -/
abbrev Ev := Vec → Vec → Mat → Vec → Vec → Mat

/-- Boolean shape test for a 2-D array: r rows, each of length c. -/
def rectShapeb (m : Mat) (r c : Nat) : Bool :=
  (m.length == r) && m.all (fun row => row.length == c)

/-- Shape of a 2-D array, as a proposition: r rows, each of length c. -/
def RectShape (m : Mat) (r c : Nat) : Prop :=
  m.length = r ∧ ∀ row ∈ m, row.length = c

/-- Two 2-D arrays of identical shape: rows in pointwise correspondence with
equal lengths. -/
def SameShape (a b : Mat) : Prop :=
  List.Forall₂ (fun ra rb => ra.length = rb.length) a b

/-- Model of scipy.interpolate.interp2d construction on a rectangular grid, in
the order the collaborator validates: a 2-D value array whose shape does not
match (len(ys), len(xs)) is rejected; then an interpolation kind outside the
supported set is rejected; then FITPACK regrid_smth requires strictly more
samples than the spline degree along each axis (mx > kx and my > ky) and
raises otherwise; only then does it yield the evaluation closure of the
underlying spline. -/
def interp2d (ev : Ev) (xs ys : Vec) (z : Mat) (kind : String) :
    Except Err (Vec → Vec → Mat) :=
  if rectShapeb z ys.length xs.length then
    if kind ∈ supportedKinds then
      if splineDegree kind < xs.length ∧ splineDegree kind < ys.length then
        Except.ok (ev xs ys z)
      else Except.error Err.tooFewSamples
    else Except.error Err.invalidParameter
  else Except.error Err.shapeMismatch

/-- Elementwise difference of two same-shaped 2-D arrays (NumPy -). -/
def matSub (a b : Mat) : Mat := List.zipWith (List.zipWith (· - ·)) a b

/-- Elementwise sum of two same-shaped 2-D arrays (NumPy +). -/
def matAdd (a b : Mat) : Mat := List.zipWith (List.zipWith (· + ·)) a b

/-- The Residual Filter, get_residual of src/expanding_kernel.py, parameterised
by its two external collaborators: ev, the spline evaluation inside
scipy.interpolate.interp2d, and gauss, scipy.ndimage.gaussian_filter.  The body
follows the source line by line: radial grid and stretched axes on the raw 1-D
axes (lines 38-43), forward interpolant of the data on the original axes
evaluated at the stretched axes (lines 46-49), Gaussian blur with the single
scalar sigma w0 and the highpass difference (lines 51-53), and the final
interpolant built at the stretched axes and evaluated back at the original
axes, of the background or of the highpass residual according to the flag
(lines 55-71). -/
def get_residual (ev : Ev) (gauss : Mat → ℝ → Mat)
    (data : Mat) (xaxis yaxis : Vec) (gamma w0 : ℝ)
    (interp_kind : String) (return_background : Bool) : Except Err Mat :=
  match stretchedGrid xaxis yaxis gamma with
  | none => Except.error Err.broadcastError
  | some (x, y) =>
    match interp2d ev xaxis yaxis data interp_kind with
    | Except.error e => Except.error e
    | Except.ok func1 =>
      let stretched_data := func1 x y
      let background := gauss stretched_data w0
      let highpass_residual := matSub stretched_data background
      if return_background then
        match interp2d ev x y background interp_kind with
        | Except.error e => Except.error e
        | Except.ok func2 => Except.ok (func2 xaxis yaxis)
      else
        match interp2d ev x y highpass_residual interp_kind with
        | Except.error e => Except.error e
        | Except.ok func2 => Except.ok (func2 xaxis yaxis)

/-- Spec-side definition, for the refinement comparison of claim C1 only:
entry (i, j) of the 2-D stretched x-coordinate grid under meshgrid "xy"
semantics, x(i,j) = X(j) * (sqrt (X(j)^2 + Y(i)^2))^gamma, as the
specification describes stages 1-2. -/
def xStretchSpec (X Y : Vec) (gamma : ℝ) (i j : Nat) : ℝ :=
  X.getD j 0 * ((X.getD j 0 ^ 2 + Y.getD i 0 ^ 2) ^ (0.5 : ℝ)) ^ gamma

/-- The stretched x-coordinate the code attaches to column j.  It is a single
value, independent of the row index, because the code computes the stretch on
the raw 1-D axes. -/
def xStretchCode (X Y : Vec) (gamma : ℝ) (j : Nat) : Option ℝ :=
  (stretchedGrid X Y gamma).map (fun p => p.1.getD j 0)

/-- A concrete interpolator instance, used to instantiate the collaborator
hypotheses in witnesses: the everywhere-zero interpolant.  It is linear in the
value array and returns grids of the documented shape. -/
def evZero : Ev := fun _ _ _ qx qy => qy.map (fun _ => qx.map (fun _ => (0 : ℝ)))

/-- A concrete interpolator instance that reproduces its sample values when
evaluated at its own sample nodes, as spline interpolation does. -/
def evNodes : Ev := fun _ _ z _ _ => z

/-- A concrete Gaussian-filter instance: the identity filter.  It agrees with
scipy.ndimage.gaussian_filter at sigma = 0, where that filter is the identity. -/
def gaussId : Mat → ℝ → Mat := fun m _ => m

/-- Pointwise closeness of two 2-D arrays up to a tolerance, entries read with
a default of 0 outside the arrays. -/
def closeMat (eps : ℝ) (a b : Mat) : Prop :=
  ∀ i j, |(a.getD i []).getD j 0 - (b.getD i []).getD j 0| ≤ eps

/-- A numpy object living on the heap: a 1-D or a 2-D array. -/
inductive NpObj where
  | vec (v : Vec)
  | mat (m : Mat)

/-- The heap of numpy arrays, addressed by allocation order. -/
abbrev Store := List NpObj

/-- Read a 1-D array out of the heap. -/
def readVec (s : Store) (i : Nat) : Vec :=
  match s.getD i (NpObj.vec []) with
  | NpObj.vec v => v
  | NpObj.mat _ => []

/-- Read a 2-D array out of the heap. -/
def readMat (s : Store) (i : Nat) : Mat :=
  match s.getD i (NpObj.vec []) with
  | NpObj.mat m => m
  | NpObj.vec _ => []

/-- Allocate a fresh array on the heap, returning the extended heap and the
address of the new cell.  Every NumPy and scipy operation appearing in the
source allocates its result; none writes into an existing array. -/
def alloc (s : Store) (o : NpObj) : Store × Nat := (s ++ [o], s.length)

/-- Heap-passing embedding of get_residual, for the mutation claim: the three
inputs are heap cells, the entry copies data.copy(), xaxis.copy(),
yaxis.copy() allocate fresh cells (lines 35-36), every later intermediate
(stretched axes, stretched_data, background, highpass_residual, output) is
allocated fresh per the allocating semantics of the NumPy and scipy calls in
lines 38-71, and all computation reads the copies, never the input cells. -/
def get_residual_heap (ev : Ev) (gauss : Mat → ℝ → Mat) (s0 : Store)
    (dref xref yref : Nat) (gamma w0 : ℝ) (kind : String) (flag : Bool) :
    Except Err (Store × Nat) :=
  let (s1, dcopy) := alloc s0 (NpObj.mat (readMat s0 dref))
  let (s2, xcopy) := alloc s1 (NpObj.vec (readVec s0 xref))
  let (s3, ycopy) := alloc s2 (NpObj.vec (readVec s0 yref))
  match stretchedGrid (readVec s3 xcopy) (readVec s3 ycopy) gamma with
  | none => Except.error Err.broadcastError
  | some (x, y) =>
    let (s4, xr) := alloc s3 (NpObj.vec x)
    let (s5, yr) := alloc s4 (NpObj.vec y)
    match interp2d ev (readVec s5 xcopy) (readVec s5 ycopy) (readMat s5 dcopy) kind with
    | Except.error e => Except.error e
    | Except.ok func1 =>
      let (s6, sd) := alloc s5 (NpObj.mat (func1 (readVec s5 xr) (readVec s5 yr)))
      let (s7, bg) := alloc s6 (NpObj.mat (gauss (readMat s6 sd) w0))
      let (s8, hp) := alloc s7 (NpObj.mat (matSub (readMat s7 sd) (readMat s7 bg)))
      let sel := if flag then bg else hp
      match interp2d ev (readVec s8 xr) (readVec s8 yr) (readMat s8 sel) kind with
      | Except.error e => Except.error e
      | Except.ok func2 =>
        let (s9, outr) := alloc s8 (NpObj.mat (func2 (readVec s8 xcopy) (readVec s8 ycopy)))
        Except.ok (s9, outr)

end

/-! Helper lemmas about the embedded operations. -/

section Lemmas

lemma bcast2_of_length_eq (f : ℝ → ℝ → ℝ) {a b : Vec} (h : a.length = b.length) :
    bcast2 f a b = some (List.zipWith f a b) := by
  simp [bcast2, h]

lemma radialGrid_of_length_eq {X Y : Vec} (h : X.length = Y.length) :
    radialGrid X Y =
      some (List.zipWith (fun s t => (s ^ 2 + t ^ 2) ^ (0.5 : ℝ)) X Y) := by
  unfold radialGrid
  rw [bcast2_of_length_eq (· + ·) (by simp [npSq, h])]
  simp [npSq, npPow, List.zipWith_map, List.map_zipWith]

lemma stretchAxis_of_length_eq {A R : Vec} (gamma : ℝ) (h : A.length = R.length) :
    stretchAxis A R gamma = some (List.zipWith (fun a r => a * r ^ gamma) A R) := by
  unfold stretchAxis
  rw [bcast2_of_length_eq (· * ·) (by simp [npPow, h])]
  simp [npPow, List.zipWith_map_right]

lemma zipWith_self_right (g f : ℝ → ℝ → ℝ) :
    ∀ (X Y : Vec),
      List.zipWith g X (List.zipWith f X Y) = List.zipWith (fun a b => g a (f a b)) X Y
  | [], _ => rfl
  | _ :: _, [] => rfl
  | a :: X, b :: Y => by
    simp only [List.zipWith_cons_cons, zipWith_self_right g f X Y]

lemma zipWith_self_left (g f : ℝ → ℝ → ℝ) :
    ∀ (X Y : Vec),
      List.zipWith g Y (List.zipWith f X Y) = List.zipWith (fun a b => g b (f a b)) X Y
  | [], _ => by simp
  | _ :: _, [] => rfl
  | a :: X, b :: Y => by
    simp only [List.zipWith_cons_cons, zipWith_self_left g f X Y]

lemma stretchedGrid_of_length_eq {X Y : Vec} (gamma : ℝ) (h : X.length = Y.length) :
    stretchedGrid X Y gamma =
      some (List.zipWith (fun a b => a * ((a ^ 2 + b ^ 2) ^ (0.5 : ℝ)) ^ gamma) X Y,
            List.zipWith (fun a b => b * ((a ^ 2 + b ^ 2) ^ (0.5 : ℝ)) ^ gamma) X Y) := by
  unfold stretchedGrid
  rw [radialGrid_of_length_eq h]
  dsimp only
  rw [stretchAxis_of_length_eq gamma (by simp [List.length_zipWith, h])]
  rw [stretchAxis_of_length_eq gamma (by simp [List.length_zipWith, h])]
  rw [zipWith_self_right, zipWith_self_left]

lemma zipWith_mul_rpow_zero :
    ∀ (A R : Vec), A.length = R.length →
      List.zipWith (· * ·) A (R.map (fun t => t ^ (0 : ℝ))) = A
  | [], [], _ => rfl
  | a :: A, r :: R, h => by
    simp only [List.map_cons, List.zipWith_cons_cons]
    rw [Real.rpow_zero, mul_one, zipWith_mul_rpow_zero A R (by simpa using h)]

lemma stretchAxis_zero {A R : Vec} (h : A.length = R.length) :
    stretchAxis A R 0 = some A := by
  unfold stretchAxis
  rw [bcast2_of_length_eq (· * ·) (by simp [npPow, h])]
  unfold npPow
  rw [zipWith_mul_rpow_zero A R h]

lemma stretchedGrid_zero {X Y : Vec} (h : X.length = Y.length) :
    stretchedGrid X Y 0 = some (X, Y) := by
  unfold stretchedGrid
  rw [radialGrid_of_length_eq h]
  dsimp only
  rw [stretchAxis_zero (by simp [List.length_zipWith, h])]
  rw [stretchAxis_zero (by simp [List.length_zipWith, h])]

lemma rectShapeb_iff {m : Mat} {r c : Nat} : rectShapeb m r c = true ↔ RectShape m r c := by
  simp [rectShapeb, RectShape, List.all_eq_true]

lemma sameShape_length {a b : Mat} (h : SameShape a b) : a.length = b.length :=
  List.Forall₂.length_eq h

lemma rect_of_sameShape {a b : Mat} {r c : Nat} (h : SameShape a b)
    (hb : RectShape b r c) : RectShape a r c := by
  obtain ⟨hl, hrows⟩ := hb
  refine ⟨(sameShape_length h).trans hl, ?_⟩
  clear hl
  induction h with
  | nil => intro row hrow; cases hrow
  | cons h1 h2 ih =>
    intro row hrow
    rcases List.mem_cons.mp hrow with heq | hmem
    · subst heq
      exact h1.trans (hrows _ (List.mem_cons_self _ _))
    · exact ih (fun s hs => hrows s (List.mem_cons_of_mem _ hs)) row hmem

lemma exists_of_mem_zipWith {α β γ : Type} {f : α → β → γ} :
    ∀ {a : List α} {b : List β} {x : γ}, x ∈ List.zipWith f a b →
      ∃ ra, ra ∈ a ∧ ∃ rb, rb ∈ b ∧ x = f ra rb
  | [], _, _, h => by cases h
  | _ :: _, [], _, h => by cases h
  | a :: as, b :: bs, x, h => by
    rcases List.mem_cons.mp h with hx | hx
    · exact ⟨a, List.mem_cons_self _ _, b, List.mem_cons_self _ _, hx⟩
    · obtain ⟨ra, hra, rb, hrb, hx⟩ := exists_of_mem_zipWith hx
      exact ⟨ra, List.mem_cons_of_mem _ hra, rb, List.mem_cons_of_mem _ hrb, hx⟩

lemma rect_matSub {a b : Mat} {r c : Nat} (ha : RectShape a r c)
    (hb : RectShape b r c) : RectShape (matSub a b) r c := by
  refine ⟨by simp [matSub, List.length_zipWith, ha.1, hb.1], ?_⟩
  intro row hrow
  obtain ⟨ra, hra, rb, hrb, hx⟩ := exists_of_mem_zipWith hrow
  subst hx
  simp [List.length_zipWith, ha.2 ra hra, hb.2 rb hrb]

lemma vecAdd_vecSub :
    ∀ {b s : Vec}, b.length = s.length →
      List.zipWith (· + ·) b (List.zipWith (· - ·) s b) = s
  | [], [], _ => rfl
  | b :: bs, t :: ts, h => by
    simp only [List.zipWith_cons_cons, add_sub_cancel]
    exact congrArg (t :: ·) (vecAdd_vecSub (by simpa using h))

lemma matAdd_matSub {b s : Mat} (h : SameShape b s) : matAdd b (matSub s b) = s := by
  induction h with
  | nil => rfl
  | cons h1 h2 ih =>
    simp only [matAdd, matSub, List.zipWith_cons_cons] at ih ⊢
    rw [vecAdd_vecSub h1, ih]

lemma evZero_rect (xs ys : Vec) (z : Mat) (qx qy : Vec) :
    RectShape (evZero xs ys z qx qy) qy.length qx.length := by
  refine ⟨by simp [evZero], ?_⟩
  intro row hrow
  simp only [evZero, List.mem_map] at hrow
  obtain ⟨_, _, hrow⟩ := hrow
  simp [← hrow]

lemma zipWith_add_map_zero :
    ∀ (qx : Vec),
      List.zipWith (· + ·) (qx.map (fun _ => (0:ℝ))) (qx.map (fun _ => (0:ℝ)))
        = qx.map (fun _ => (0:ℝ))
  | [] => rfl
  | _ :: qx => by
    simp only [List.map_cons, List.zipWith_cons_cons, add_zero]
    exact congrArg _ (zipWith_add_map_zero qx)

lemma evZero_additive (xs ys : Vec) (z1 z2 : Mat) (qx qy : Vec) :
    matAdd (evZero xs ys z1 qx qy) (evZero xs ys z2 qx qy)
      = evZero xs ys (matAdd z1 z2) qx qy := by
  unfold evZero matAdd
  induction qy with
  | nil => rfl
  | cons b qy ih =>
    simp only [List.map_cons, List.zipWith_cons_cons]
    rw [zipWith_add_map_zero qx]
    exact congrArg _ ih

lemma interp2d_ok_elim {ev : Ev} {xs ys : Vec} {z : Mat} {kind : String}
    {g : Vec → Vec → Mat} (h : interp2d ev xs ys z kind = Except.ok g) :
    kind ∈ supportedKinds ∧ RectShape z ys.length xs.length ∧
      splineDegree kind < xs.length ∧ splineDegree kind < ys.length ∧
      g = ev xs ys z := by
  unfold interp2d at h
  split at h
  · split at h
    · split at h
      · rename_i hs hk hdeg
        injection h with h
        exact ⟨hk, rectShapeb_iff.mp hs, hdeg.1, hdeg.2, h.symm⟩
      · cases h
    · cases h
  · cases h

lemma get_residual_ok_elim {ev : Ev} {gauss : Mat → ℝ → Mat} {data : Mat}
    {X Y : Vec} {gamma w0 : ℝ} {kind : String} {flag : Bool} {out : Mat}
    (h : get_residual ev gauss data X Y gamma w0 kind flag = Except.ok out) :
    ∃ x y, stretchedGrid X Y gamma = some (x, y) ∧
      kind ∈ supportedKinds ∧
      RectShape data Y.length X.length ∧
      RectShape (if flag then gauss (ev X Y data x y) w0
                 else matSub (ev X Y data x y) (gauss (ev X Y data x y) w0))
        y.length x.length ∧
      out = ev x y (if flag then gauss (ev X Y data x y) w0
                    else matSub (ev X Y data x y) (gauss (ev X Y data x y) w0)) X Y := by
  unfold get_residual at h
  split at h
  · cases h
  rename_i x y hg
  refine ⟨x, y, hg, ?_⟩
  split at h
  · cases h
  rename_i func1 hf1
  obtain ⟨hkind, hdata, _, _, hfunc1⟩ := interp2d_ok_elim hf1
  subst hfunc1
  split at h
  · rename_i hflag
    dsimp only at h
    split at h
    · cases h
    rename_i func2 hf2
    obtain ⟨_, hsel, _, _, hfunc2⟩ := interp2d_ok_elim hf2
    subst hfunc2
    injection h with h
    subst h
    simp [hflag, hkind, hdata, hsel]
  · rename_i hflag
    dsimp only at h
    split at h
    · cases h
    rename_i func2 hf2
    obtain ⟨_, hsel, _, _, hfunc2⟩ := interp2d_ok_elim hf2
    subst hfunc2
    injection h with h
    subst h
    simp [hflag, hkind, hdata, hsel]

lemma sameShape_refl (m : Mat) : SameShape m m :=
  List.forall₂_same.mpr (fun _ _ => rfl)

/-- Fully concrete run of the pipeline with the zero interpolant and the
identity filter, used by witnesses and by the kernel-width counterexample.
The grid is 2 x 2 with strictly increasing centered axes, so the linear-kind
interpolator has the more-samples-than-degree minimum FITPACK requires. -/
lemma concrete_run (w0 : ℝ) (flag : Bool) :
    get_residual evZero gaussId [[(0:ℝ), 0], [0, 0]] [-1, 1] [-1, 1] 0 w0 "linear" flag
      = Except.ok [[(0:ℝ), 0], [0, 0]] := by
  unfold get_residual
  rw [stretchedGrid_zero rfl]
  cases flag <;>
    simp [interp2d, supportedKinds, splineDegree, rectShapeb, evZero, gaussId, matSub]

end Lemmas

/-! Theorems settling the claims. -/

/-- Claim C1, counterexample: stage 1 does not build the 2-D meshgrid radial
grid.  The code computes R and the stretched coordinates elementwise on the
raw 1-D axes, so the stretched x-coordinate it attaches to column j is a
single value, independent of the row; on axes (-1, 0, 1) with gamma = 1 the
code attaches sqrt 2 to column 2, whereas the meshgrid stretched grid of the
claim has value 1 at row 1, column 2. -/
theorem stretched_grid_not_meshgrid :
    xStretchCode [-1, 0, 1] [-1, 0, 1] 1 2 = some ((2:ℝ) ^ (0.5:ℝ)) ∧
    xStretchSpec [-1, 0, 1] [-1, 0, 1] 1 1 2 = 1 ∧
    (2:ℝ) ^ (0.5:ℝ) ≠ 1 := by
  refine ⟨?_, ?_, ?_⟩
  · unfold xStretchCode
    rw [stretchedGrid_of_length_eq 1 rfl]
    norm_num [List.getD, Real.rpow_one]
  · unfold xStretchSpec
    norm_num [List.getD, Real.rpow_one, Real.one_rpow]
  · rw [show (0.5:ℝ) = 1/2 by norm_num, ← Real.sqrt_eq_rpow, ne_eq, Real.sqrt_eq_one]
    norm_num

/-- Claim C1 (amended): in stage 1 the radial grid R and the stretched
coordinates are 1-D arrays computed elementwise on the raw axes, under the
broadcast precondition that the axes have equal length: R(k) =
sqrt (X(k)^2 + Y(k)^2), x(k) = X(k) * R(k)^gamma, y(k) = Y(k) * R(k)^gamma,
and R has the length of the axes, not the shape of the data map. -/
theorem radial_grid_elementwise (X Y : Vec) (gamma : ℝ) (hlen : X.length = Y.length) :
    radialGrid X Y = some (List.zipWith (fun a b => (a ^ 2 + b ^ 2) ^ (0.5:ℝ)) X Y) ∧
    stretchedGrid X Y gamma =
      some (List.zipWith (fun a b => a * ((a ^ 2 + b ^ 2) ^ (0.5:ℝ)) ^ gamma) X Y,
            List.zipWith (fun a b => b * ((a ^ 2 + b ^ 2) ^ (0.5:ℝ)) ^ gamma) X Y) ∧
    (List.zipWith (fun a b => (a ^ 2 + b ^ 2) ^ (0.5:ℝ)) X Y).length = X.length := by
  refine ⟨radialGrid_of_length_eq hlen, stretchedGrid_of_length_eq gamma hlen, ?_⟩
  simp [List.length_zipWith, hlen]

/-- Witness for the amended claim C1, on the one-point axes. -/
theorem radial_grid_elementwise_witness :
    radialGrid [0] [0]
      = some (List.zipWith (fun a b => (a ^ 2 + b ^ 2) ^ (0.5:ℝ)) ([0] : Vec) [0]) ∧
    stretchedGrid [0] [0] 0 =
      some (List.zipWith (fun a b => a * ((a ^ 2 + b ^ 2) ^ (0.5:ℝ)) ^ (0:ℝ)) ([0] : Vec) [0],
            List.zipWith (fun a b => b * ((a ^ 2 + b ^ 2) ^ (0.5:ℝ)) ^ (0:ℝ)) ([0] : Vec) [0]) ∧
    (List.zipWith (fun a b => (a ^ 2 + b ^ 2) ^ (0.5:ℝ)) ([0] : Vec) [0]).length
      = List.length ([0] : Vec) :=
  radial_grid_elementwise [0] [0] 0 rfl

/-- Claim C2, counterexample: a kernel width of zero raises nothing.  On the
2 x 2 grid with strictly increasing centered axes — enough samples per axis
for the linear spline, so the interpolator accepts its inputs — with the zero
interpolant and a Gaussian filter that is the identity at sigma = 0 (exactly
the documented behaviour of scipy.ndimage.gaussian_filter there), the call
with w0 = 0 returns a complete output map instead of an
InvalidParameterError. -/
theorem w0_zero_completes :
    get_residual evZero gaussId [[(0:ℝ), 0], [0, 0]] [-1, 1] [-1, 1] 0 0 "linear" false
      = Except.ok [[(0:ℝ), 0], [0, 0]] :=
  concrete_run 0 false

/-- Claim C2 (amended): get_residual performs no validation of its own; the
errors it surfaces come from the interpolator collaborator, in the order it
validates.  With broadcast-compatible axes, a data array whose shape does not
match (len(yaxis), len(xaxis)) surfaces as ShapeMismatchError; then an
unsupported interpolation kind surfaces as InvalidParameterError; then axes
without strictly more samples than the spline degree surface as the FITPACK
minimum-sample error; each failure occurs before any output is produced.  The
kernel width is forwarded unvalidated, so no value of w0 — zero included —
can produce an InvalidParameterError. -/
theorem collaborator_validation (ev : Ev) (gauss : Mat → ℝ → Mat) (data : Mat)
    (X Y : Vec) (gamma w0 : ℝ) (kind : String) (flag : Bool)
    (hlen : X.length = Y.length) :
    (¬ RectShape data Y.length X.length →
      get_residual ev gauss data X Y gamma w0 kind flag
        = Except.error Err.shapeMismatch) ∧
    (RectShape data Y.length X.length → kind ∉ supportedKinds →
      get_residual ev gauss data X Y gamma w0 kind flag
        = Except.error Err.invalidParameter) ∧
    (RectShape data Y.length X.length → kind ∈ supportedKinds →
      X.length ≤ splineDegree kind ∨ Y.length ≤ splineDegree kind →
      get_residual ev gauss data X Y gamma w0 kind flag
        = Except.error Err.tooFewSamples) ∧
    (kind ∈ supportedKinds →
      get_residual ev gauss data X Y gamma w0 kind flag
        ≠ Except.error Err.invalidParameter) := by
  have hst := stretchedGrid_of_length_eq gamma hlen
  refine ⟨?_, ?_, ?_, ?_⟩
  · intro hd
    unfold get_residual
    rw [hst]
    dsimp only
    unfold interp2d
    rw [if_neg (fun hh => hd (rectShapeb_iff.mp hh))]
  · intro hd hk
    unfold get_residual
    rw [hst]
    dsimp only
    unfold interp2d
    rw [if_pos (rectShapeb_iff.mpr hd), if_neg hk]
  · intro hd hk hdeg
    unfold get_residual
    rw [hst]
    dsimp only
    unfold interp2d
    rw [if_pos (rectShapeb_iff.mpr hd), if_pos hk,
      if_neg (fun hc => hdeg.elim
        (fun h => absurd (lt_of_lt_of_le hc.1 h) (lt_irrefl _))
        (fun h => absurd (lt_of_lt_of_le hc.2 h) (lt_irrefl _)))]
  · intro hk heq
    unfold get_residual at heq
    rw [hst] at heq
    dsimp only at heq
    unfold interp2d at heq
    by_cases hd : rectShapeb data Y.length X.length
    · rw [if_pos hd, if_pos hk] at heq
      by_cases hdeg : splineDegree kind < X.length ∧ splineDegree kind < Y.length
      · rw [if_pos hdeg] at heq
        dsimp only at heq
        split at heq
        · split at heq
          · rename_i e hif
            injection heq with heq
            subst heq
            split at hif
            · split at hif
              · cases hif
              · cases hif
            · cases hif
          · cases heq
        · split at heq
          · rename_i e hif
            injection heq with heq
            subst heq
            split at hif
            · split at hif
              · cases hif
              · cases hif
            · cases hif
          · cases heq
      · rw [if_neg hdeg] at heq
        dsimp only at heq
        cases heq
    · rw [if_neg hd] at heq
      dsimp only at heq
      cases heq

/-- Witness for the amended claim C2: on the 2 x 2 grid an unsupported kind
surfaces as InvalidParameterError. -/
theorem collaborator_validation_witness :
    get_residual evZero gaussId [[(0:ℝ), 0], [0, 0]] [-1, 1] [-1, 1] 0 1 "bogus" false
      = Except.error Err.invalidParameter :=
  (collaborator_validation evZero gaussId [[(0:ℝ), 0], [0, 0]] [-1, 1] [-1, 1]
      0 1 "bogus" false rfl).2.1
    (by simp [RectShape]) (by simp [supportedKinds])

/-- Claim C3: flag complementarity.  Assuming the interpolant evaluation is
additive in its value array (true of spline interpolation) and the Gaussian
filter is shape preserving, the sum of the two outputs equals the roundtrip
of stretched_data through the inverse interpolation, so whenever that
roundtrip is within eps of the input data pointwise, so is the sum of the
output with return_background = true and the output with
return_background = false. -/
theorem flag_complementarity (ev : Ev) (gauss : Mat → ℝ → Mat) (data : Mat)
    (X Y x y : Vec) (gamma w0 eps : ℝ) (kind : String) (oT oF : Mat)
    (hadd : ∀ xs ys z1 z2 qx qy,
      matAdd (ev xs ys z1 qx qy) (ev xs ys z2 qx qy) = ev xs ys (matAdd z1 z2) qx qy)
    (hg : ∀ m sigma, SameShape (gauss m sigma) m)
    (hxy : stretchedGrid X Y gamma = some (x, y))
    (hT : get_residual ev gauss data X Y gamma w0 kind true = Except.ok oT)
    (hF : get_residual ev gauss data X Y gamma w0 kind false = Except.ok oF)
    (hround : closeMat eps (ev x y (ev X Y data x y) X Y) data) :
    closeMat eps (matAdd oT oF) data := by
  obtain ⟨x1, y1, hg1, _, _, _, hoT⟩ := get_residual_ok_elim hT
  obtain ⟨x2, y2, hg2, _, _, _, hoF⟩ := get_residual_ok_elim hF
  rw [hxy] at hg1 hg2
  obtain ⟨hx1, hy1⟩ : x = x1 ∧ y = y1 := by simpa [eq_comm] using hg1
  obtain ⟨hx2, hy2⟩ : x = x2 ∧ y = y2 := by simpa [eq_comm] using hg2
  subst hx1; subst hy1; subst hx2; subst hy2
  simp only [if_true, if_false, Bool.false_eq_true, ite_true, ite_false] at hoT hoF
  rw [hoT, hoF, hadd, matAdd_matSub (hg (ev X Y data x y) w0)]
  exact hround

/-- Witness for claim C3, on the 2 x 2 grid with the zero interpolant and
the identity filter, at tolerance 0. -/
theorem flag_complementarity_witness :
    closeMat 0 (matAdd [[(0:ℝ), 0], [0, 0]] [[(0:ℝ), 0], [0, 0]]) [[(0:ℝ), 0], [0, 0]] :=
  flag_complementarity evZero gaussId [[(0:ℝ), 0], [0, 0]] [-1, 1] [-1, 1] [-1, 1] [-1, 1]
    0 1 0 "linear" [[(0:ℝ), 0], [0, 0]] [[(0:ℝ), 0], [0, 0]]
    (fun xs ys z1 z2 qx qy => evZero_additive xs ys z1 z2 qx qy)
    (fun m _ => sameShape_refl m)
    (stretchedGrid_zero rfl)
    (concrete_run 1 true)
    (concrete_run 1 false)
    (by intro i j; simp [evZero, closeMat, List.getD])

/-- Claim C4: with gamma = 0 the stretched grid is exactly the original grid
(R^0 = 1 everywhere, the R = 0 point included), and — for an interpolant that
reproduces its samples at its own nodes and a shape-preserving filter — the
pipeline degenerates to the plain fixed-width Gaussian high-pass filter
data - gauss(data, w0). -/
theorem gamma_zero_degenerates (ev : Ev) (gauss : Mat → ℝ → Mat) (data : Mat)
    (X Y : Vec) (w0 : ℝ) (kind : String)
    (hlen : X.length = Y.length)
    (hkind : kind ∈ supportedKinds)
    (hdx : splineDegree kind < X.length)
    (hdy : splineDegree kind < Y.length)
    (hrect : RectShape data Y.length X.length)
    (hrepr : ∀ xs ys z, ev xs ys z xs ys = z)
    (hg : ∀ m sigma, SameShape (gauss m sigma) m) :
    stretchedGrid X Y 0 = some (X, Y) ∧
    get_residual ev gauss data X Y 0 w0 kind false
      = Except.ok (matSub data (gauss data w0)) := by
  refine ⟨stretchedGrid_zero hlen, ?_⟩
  have hhp : RectShape (matSub data (gauss data w0)) Y.length X.length :=
    rect_matSub hrect (rect_of_sameShape (hg data w0) hrect)
  unfold get_residual
  rw [stretchedGrid_zero hlen]
  dsimp only
  unfold interp2d
  rw [if_pos (rectShapeb_iff.mpr hrect)]
  rw [if_pos hkind]
  rw [if_pos (And.intro hdx hdy)]
  dsimp only
  rw [if_neg Bool.false_ne_true]
  rw [hrepr X Y data]
  rw [if_pos (rectShapeb_iff.mpr hhp)]
  rw [if_pos hkind]
  rw [if_pos (And.intro hdx hdy)]
  dsimp only
  rw [hrepr X Y (matSub data (gauss data w0))]

/-- Witness for claim C4, on the 2 x 2 grid with the node-reproducing
interpolant and the identity filter. -/
theorem gamma_zero_degenerates_witness :
    stretchedGrid [-1, 1] [-1, 1] 0 = some ([-1, 1], [-1, 1]) ∧
    get_residual evNodes gaussId [[(0:ℝ), 0], [0, 0]] [-1, 1] [-1, 1] 0 1 "linear" false
      = Except.ok (matSub [[(0:ℝ), 0], [0, 0]] (gaussId [[(0:ℝ), 0], [0, 0]] 1)) :=
  gamma_zero_degenerates evNodes gaussId [[(0:ℝ), 0], [0, 0]] [-1, 1] [-1, 1] 1 "linear" rfl
    (by simp [supportedKinds])
    (by norm_num [splineDegree])
    (by norm_num [splineDegree])
    (by simp [RectShape])
    (fun xs ys z => rfl)
    (fun m _ => sameShape_refl m)

/-- Claim C5: shape invariance.  Whenever get_residual returns an array, that
array has the shape (len(yaxis), len(xaxis)) — and so does the input data map,
which the interpolator checked on entry — so output and data have identical
shape.  The only collaborator fact used is that the interpolant evaluation
returns a grid of shape (|query ys|, |query xs|), the documented interp2d
behaviour. -/
theorem output_shape_invariance (ev : Ev) (gauss : Mat → ℝ → Mat) (data : Mat)
    (X Y : Vec) (gamma w0 : ℝ) (kind : String) (flag : Bool) (out : Mat)
    (hev : ∀ xs ys z qx qy, RectShape (ev xs ys z qx qy) qy.length qx.length)
    (hok : get_residual ev gauss data X Y gamma w0 kind flag = Except.ok out) :
    RectShape out Y.length X.length ∧ RectShape data Y.length X.length := by
  obtain ⟨x, y, _, _, hdata, _, hout⟩ := get_residual_ok_elim hok
  subst hout
  exact ⟨hev _ _ _ _ _, hdata⟩

/-- Witness for claim C5 on the 2 x 2 grid. -/
theorem output_shape_invariance_witness :
    RectShape [[(0:ℝ), 0], [0, 0]] 2 2 ∧ RectShape [[(0:ℝ), 0], [0, 0]] 2 2 :=
  output_shape_invariance evZero gaussId [[(0:ℝ), 0], [0, 0]] [-1, 1] [-1, 1]
    0 1 "linear" false [[(0:ℝ), 0], [0, 0]]
    (fun xs ys z qx qy => evZero_rect xs ys z qx qy)
    (concrete_run 1 false)

/-- Claim C6: stage structure.  Whenever get_residual succeeds, its output is
the inverse interpolation — built at the stretched coordinates and evaluated
at the original axes — of exactly one of the two stretched-space arrays:
background = gauss(stretched_data, w0) (single scalar sigma) if the flag is
set, otherwise highpass = stretched_data - background, where stretched_data
is the forward interpolation of the data at the stretched coordinates. -/
theorem stage_structure (ev : Ev) (gauss : Mat → ℝ → Mat) (data : Mat)
    (X Y x y : Vec) (gamma w0 : ℝ) (kind : String) (flag : Bool) (out : Mat)
    (hxy : stretchedGrid X Y gamma = some (x, y))
    (hok : get_residual ev gauss data X Y gamma w0 kind flag = Except.ok out) :
    out = ev x y (if flag then gauss (ev X Y data x y) w0
                  else matSub (ev X Y data x y) (gauss (ev X Y data x y) w0)) X Y := by
  obtain ⟨x1, y1, hg1, _, _, _, hout⟩ := get_residual_ok_elim hok
  rw [hxy] at hg1
  obtain ⟨hx1, hy1⟩ : x = x1 ∧ y = y1 := by simpa [eq_comm] using hg1
  subst hx1; subst hy1
  exact hout

/-- Witness for claim C6 on the 2 x 2 grid, flag not set. -/
theorem stage_structure_witness :
    [[(0:ℝ), 0], [0, 0]] = evZero [-1, 1] [-1, 1]
      (if false then gaussId (evZero [-1, 1] [-1, 1] [[(0:ℝ), 0], [0, 0]] [-1, 1] [-1, 1]) 1
       else matSub (evZero [-1, 1] [-1, 1] [[(0:ℝ), 0], [0, 0]] [-1, 1] [-1, 1])
         (gaussId (evZero [-1, 1] [-1, 1] [[(0:ℝ), 0], [0, 0]] [-1, 1] [-1, 1]) 1))
      [-1, 1] [-1, 1] :=
  stage_structure evZero gaussId [[(0:ℝ), 0], [0, 0]] [-1, 1] [-1, 1] [-1, 1] [-1, 1]
    0 1 "linear" false [[(0:ℝ), 0], [0, 0]]
    (stretchedGrid_zero rfl)
    (concrete_run 1 false)

/-- Claim C8: no mutation of the inputs.  In the heap-passing embedding every
operation of the source allocates a fresh array — the entry copies of data
and of both axes included — so after a successful call every heap cell that
existed before the call, the three input arrays in particular, holds exactly
the value it held before. -/
theorem no_input_mutation (ev : Ev) (gauss : Mat → ℝ → Mat) (s0 : Store)
    (dref xref yref : Nat) (gamma w0 : ℝ) (kind : String) (flag : Bool)
    (s1 : Store) (r : Nat)
    (hok : get_residual_heap ev gauss s0 dref xref yref gamma w0 kind flag
      = Except.ok (s1, r)) :
    s1.take s0.length = s0 := by
  unfold get_residual_heap alloc at hok
  dsimp only at hok
  split at hok
  · cases hok
  split at hok
  · cases hok
  split at hok
  · cases hok
  injection hok with hok
  injection hok with h1 h2
  subst h1
  simp only [List.append_assoc]
  exact List.take_left _ _

/-- Witness for claim C8: a concrete heap holding the three inputs of the
2 x 2 run; after the call the first three cells are untouched. -/
theorem no_input_mutation_witness :
    List.take
      (List.length [NpObj.mat [[(0:ℝ), 0], [0, 0]], NpObj.vec [-1, 1], NpObj.vec [-1, 1]])
      [NpObj.mat [[(0:ℝ), 0], [0, 0]], NpObj.vec [-1, 1], NpObj.vec [-1, 1],
       NpObj.mat [[(0:ℝ), 0], [0, 0]], NpObj.vec [-1, 1], NpObj.vec [-1, 1],
       NpObj.vec [-1, 1], NpObj.vec [-1, 1],
       NpObj.mat [[(0:ℝ), 0], [0, 0]], NpObj.mat [[(0:ℝ), 0], [0, 0]],
       NpObj.mat [[(0:ℝ), 0], [0, 0]], NpObj.mat [[(0:ℝ), 0], [0, 0]]]
      = [NpObj.mat [[(0:ℝ), 0], [0, 0]], NpObj.vec [-1, 1], NpObj.vec [-1, 1]] :=
  no_input_mutation evZero gaussId
    [NpObj.mat [[(0:ℝ), 0], [0, 0]], NpObj.vec [-1, 1], NpObj.vec [-1, 1]]
    0 1 2 0 1 "linear" false
    [NpObj.mat [[(0:ℝ), 0], [0, 0]], NpObj.vec [-1, 1], NpObj.vec [-1, 1],
     NpObj.mat [[(0:ℝ), 0], [0, 0]], NpObj.vec [-1, 1], NpObj.vec [-1, 1],
     NpObj.vec [-1, 1], NpObj.vec [-1, 1],
     NpObj.mat [[(0:ℝ), 0], [0, 0]], NpObj.mat [[(0:ℝ), 0], [0, 0]],
     NpObj.mat [[(0:ℝ), 0], [0, 0]], NpObj.mat [[(0:ℝ), 0], [0, 0]]]
    11
    (by
      unfold get_residual_heap alloc readVec readMat
      simp [stretchedGrid_zero, interp2d, supportedKinds, splineDegree, rectShapeb,
        evZero, gaussId, matSub, List.getD])

/-- Claim C9: determinism.  Two calls of get_residual with the same
collaborators and pointwise equal inputs return equal results. -/
theorem deterministic (ev : Ev) (gauss : Mat → ℝ → Mat)
    (d1 d2 : Mat) (X1 X2 Y1 Y2 : Vec) (g1 g2 w1 w2 : ℝ) (k1 k2 : String)
    (f1 f2 : Bool)
    (hd : d1 = d2) (hX : X1 = X2) (hY : Y1 = Y2) (hga : g1 = g2) (hw : w1 = w2)
    (hk : k1 = k2) (hf : f1 = f2) :
    get_residual ev gauss d1 X1 Y1 g1 w1 k1 f1
      = get_residual ev gauss d2 X2 Y2 g2 w2 k2 f2 := by
  subst hd; subst hX; subst hY; subst hga; subst hw; subst hk; subst hf
  rfl

/-- Witness for claim C9 on the one-point grid. -/
theorem deterministic_witness :
    get_residual evZero gaussId [[(0:ℝ)]] [0] [0] 0 1 "linear" true
      = get_residual evZero gaussId [[(0:ℝ)]] [0] [0] 0 1 "linear" true :=
  deterministic evZero gaussId [[(0:ℝ)]] [[(0:ℝ)]] [0] [0] [0] [0] 0 0 1 1
    "linear" "linear" true true rfl rfl rfl rfl rfl rfl rfl

/-- Claim C10: the undocumented equal-length precondition on the axes.  The
radial grid is computed elementwise on the raw 1-D axes, so whenever the two
axes have different lengths and neither has length 1 the broadcast fails and
get_residual fails before producing any output, for every choice of the other
arguments. -/
theorem unequal_axes_fail (ev : Ev) (gauss : Mat → ℝ → Mat) (data : Mat)
    (X Y : Vec) (gamma w0 : ℝ) (kind : String) (flag : Bool)
    (h1 : X.length ≠ Y.length) (h2 : X.length ≠ 1) (h3 : Y.length ≠ 1) :
    get_residual ev gauss data X Y gamma w0 kind flag
      = Except.error Err.broadcastError := by
  have hb : bcast2 (· + ·) (npSq X) (npSq Y) = none := by
    simp [bcast2, npSq, h1, h2, h3]
  unfold get_residual stretchedGrid radialGrid
  rw [hb]
  rfl

/-- Witness for claim C10: axes of lengths 2 and 3. -/
theorem unequal_axes_fail_witness :
    get_residual evZero gaussId [[(0:ℝ)]] [0, 0] [0, 0, 0] 0 1 "linear" false
      = Except.error Err.broadcastError :=
  unequal_axes_fail evZero gaussId [[(0:ℝ)]] [0, 0] [0, 0, 0] 0 1 "linear" false
    (by simp) (by simp) (by simp)

end ExpandingKernel
